import Mathlib

/-!
Verification of the extraction pipeline of the AI-reader repository.

The development shallowly embeds the TypeScript modules
`src/lib/extract/affiliateCode.ts`, `src/lib/llm/openai.ts` and the
`POST /api/process-once` route handler:

* pure string functions (`normalizeProductCode`, `normalizeBusinessRegNo`,
  `validateProductCode`) become Lean functions over `String`/`List Char`;
* JavaScript runtime values flowing out of `JSON.parse` are modelled by the
  dynamic value type `JValue`, so that untyped runtime behaviour (e.g. a
  non-numeric `total_found` passing through `??`) is captured faithfully;
* numbers are modelled by `ℚ` (the code only compares and copies them;
  no float rounding is relevant to any property proved here), with rational
  constants written via `mkRat`;
* the retry loop of `extractWithOpenAI` is modelled as a fuel-indexed
  recursion over an oracle `Nat → String → Option JsError` giving the outcome
  of each attempt (the attempt index is the call index, since each loop
  iteration performs exactly one API call); the observable behaviour is the
  list of emitted events (API calls and backoff delays) plus the final
  result (success or thrown error);
* the in-place mutation performed by `validateExtractionResult` is modelled
  by explicit state passing: the function returns the thrown error (if any)
  together with the post-call state of the result record.
-/

/-! ## JavaScript string helpers

The TypeScript code uses `String.prototype.trim`, `split(',')`,
`Array.prototype.join(',')` and `String.prototype.includes`.  They are
re-implemented structurally over `List Char` so that every definition is
executable by the kernel.  `\s` / `trim`'s whitespace class is modelled by
`Char.isWhitespace` (the ASCII fragment, which covers every string the
repository manipulates). -/

/-- Drop leading whitespace characters of a character list. -/
def dropLeadingWs : List Char → List Char
  | [] => []
  | c :: rest => if c.isWhitespace then dropLeadingWs rest else c :: rest

/-- Model of JavaScript `String.prototype.trim`. -/
def jsTrim (s : String) : String :=
  String.mk (List.reverse (dropLeadingWs (List.reverse (dropLeadingWs s.data))))

/-- Model of `String.prototype.split` with a single-character separator,
on character lists.  Mirrors the JS semantics: splitting the empty string
yields `[""]`, and separators at the ends yield empty fields. -/
def splitOnCharList : List Char → Char → List (List Char)
  | [], _ => [[]]
  | c :: rest, sep =>
    match splitOnCharList rest sep with
    | [] => if c == sep then [[], [c]] else [[c]]
    | h :: t => if c == sep then [] :: h :: t else (c :: h) :: t

/-- Model of JavaScript `s.split(',')`. -/
def splitOnComma (s : String) : List String :=
  (splitOnCharList s.data ',').map String.mk

/-- Model of JavaScript `Array.prototype.join(sep)` on a list of strings. -/
def joinWith : List String → String → String
  | [], _ => ""
  | [s], _ => s
  | s :: t :: rest, sep => s ++ sep ++ joinWith (t :: rest) sep

/-- Boolean prefix test on character lists. -/
def isPrefixListB : List Char → List Char → Bool
  | [], _ => true
  | _ :: _, [] => false
  | n :: ns, h :: hs => n == h && isPrefixListB ns hs

/-- Boolean contiguous-substring test on character lists. -/
def containsSubList : List Char → List Char → Bool
  | [], need => need.isEmpty
  | h :: t, need => isPrefixListB need (h :: t) || containsSubList t need

/-- Model of JavaScript `String.prototype.includes`. -/
def strIncludes (s sub : String) : Bool :=
  containsSubList s.data sub.data

/-! ## `affiliateCode.ts`: product-code and registration-number helpers -/

/-- Embedding of `normalizeProductCode` (affiliateCode.ts):
`code.trim().replace(/\s+/g, '').replace(/[-_]/g, '')` — trim, remove all
whitespace, then remove hyphens and underscores. -/
def normalizeProductCode (code : String) : String :=
  String.mk ((((jsTrim code).data.filter (fun c => !c.isWhitespace)).filter
    (fun c => !(c == '-' || c == '_'))))

/-- Embedding of `validateProductCode` (affiliateCode.ts):
`regex.test(code)`.  A JavaScript `RegExp` is modelled extensionally as the
predicate `String → Bool` it decides. -/
def validateProductCode (code : String) (regex : String → Bool) : Bool :=
  regex code

/-- Embedding of `normalizeBusinessRegNo` (affiliateCode.ts): strip all
non-digit characters; if exactly 10 digits remain, reformat as
`ddd-dd-ddddd` via `slice(0,3)/slice(3,5)/slice(5)`; otherwise return
`businessRegNo.trim()`. -/
def normalizeBusinessRegNo (businessRegNo : String) : String :=
  let digits := businessRegNo.data.filter Char.isDigit
  if digits.length = 10 then
    String.mk (digits.take 3 ++ ('-' :: ((digits.drop 3).take 2 ++ ('-' :: digits.drop 5))))
  else jsTrim businessRegNo

/-- The pattern `\d{3}-\d{2}-\d{5}` from the spec's testable property,
as a decidable predicate on strings (full match). -/
def matchesBizRegFormat (s : String) : Bool :=
  match s.data with
  | [a, b, c, h1, d, e, h2, f, g, i, j, k] =>
    a.isDigit && b.isDigit && c.isDigit && (h1 == '-') && d.isDigit && e.isDigit &&
    (h2 == '-') && f.isDigit && g.isDigit && i.isDigit && j.isDigit && k.isDigit
  | _ => false

/-! ### Helper lemmas for the normalization proofs -/

theorem list_len10_destruct (l : List Char) (h : l.length = 10) :
    ∃ c0 c1 c2 c3 c4 c5 c6 c7 c8 c9,
      l = [c0, c1, c2, c3, c4, c5, c6, c7, c8, c9] := by
  rcases l with _ | ⟨c0, l⟩; · simp at h
  rcases l with _ | ⟨c1, l⟩; · simp at h
  rcases l with _ | ⟨c2, l⟩; · simp at h
  rcases l with _ | ⟨c3, l⟩; · simp at h
  rcases l with _ | ⟨c4, l⟩; · simp at h
  rcases l with _ | ⟨c5, l⟩; · simp at h
  rcases l with _ | ⟨c6, l⟩; · simp at h
  rcases l with _ | ⟨c7, l⟩; · simp at h
  rcases l with _ | ⟨c8, l⟩; · simp at h
  rcases l with _ | ⟨c9, l⟩; · simp at h
  rcases l with _ | ⟨c10, l⟩
  · exact ⟨c0, c1, c2, c3, c4, c5, c6, c7, c8, c9, rfl⟩
  · simp at h

example : normalizeBusinessRegNo "1234567890" = "123-45-67890" := by decide
example : normalizeBusinessRegNo "123-45-67890" = "123-45-67890" := by decide
example : normalizeBusinessRegNo " 12 " = "12" := by decide
example : normalizeProductCode " 0-3 269_ " = "03269" := by decide
example : splitOnComma "12345,99" = ["12345", "99"] := by decide
example : splitOnComma "" = [""] := by decide
example : joinWith ["a", "b"] "," = "a,b" := by decide
example : strIncludes "model xy not found" "not found" = true := by decide
example : strIncludes "bad" "fetch" = false := by decide

/-! ## Dynamic JSON values

`JValue` models the JavaScript values produced by `JSON.parse`: untyped
trees of null/booleans/numbers/strings/arrays/objects.  Property access on
a non-object or an absent property yields `undefined`, modelled as `none`
of `Option JValue`. -/

/-- A parsed JSON value (the result of `JSON.parse`). -/
inductive JValue where
  | null
  | bool (b : Bool)
  | num (q : ℚ)
  | str (s : String)
  | arr (elems : List JValue)
  | obj (fields : List (String × JValue))

/-- JavaScript property access `v.key`: `none` models `undefined`
(absent property, or access on a non-object). JSON objects have unique
keys, so first-match lookup is exact. -/
def jGetField : JValue → String → Option JValue
  | JValue.obj fields, key => (fields.find? (fun p => p.1 == key)).map Prod.snd
  | _, _ => none

/-- JavaScript nullish coalescing `a ?? b`: `b` exactly when `a` is
`undefined` (`none`) or `null`. -/
def jsCoalesce (v : Option JValue) (dflt : JValue) : JValue :=
  match v with
  | none => dflt
  | some JValue.null => dflt
  | some x => x

/-- JavaScript `typeof x === 'string' ? x : undefined` on a property value. -/
def asOptStr : Option JValue → Option String
  | some (JValue.str s) => some s
  | _ => none

/-- JavaScript `typeof x === 'number' ? x : undefined` on a property value. -/
def asOptNum : Option JValue → Option ℚ
  | some (JValue.num q) => some q
  | _ => none

/-! ## `openai.ts`: data model and response parsing -/

/-- Embedding of the `ExtractedItem` interface (openai.ts). -/
structure ExtractedItem where
  product_code : String
  business_reg_no : String
  company_name : Option String
  row_index : Option ℚ
  raw_text : Option String
deriving DecidableEq

/-- Embedding of the `OpenAIExtractionResult` interface (openai.ts).
`total_found` is declared `number` in TypeScript, but
`parseExtractionResult` assigns `parsed.total_found ?? items.length`
without a type check, so at runtime it holds whatever JSON value the model
returned; it is therefore modelled as a `JValue`.  Similarly `raw_text` is
assigned `parsed.raw_text` unchecked. -/
structure OpenAIExtractionResult where
  items : List ExtractedItem
  total_found : JValue
  confidence : ℚ
  raw_text : Option JValue

/-- Embedding of the `OpenAICallMetadata` interface (openai.ts). -/
structure OpenAICallMetadata where
  client_request_id : String
  x_request_id : Option String
  model_used : String

/-- Embedding of the `OpenAIResponse` interface (openai.ts). -/
structure OpenAIResponse where
  result : OpenAIExtractionResult
  metadata : OpenAICallMetadata

/-- The per-item validation inside `parseExtractionResult`'s
`parsed.items.map(...)` callback (openai.ts): each element must have
string `product_code` and `business_reg_no`; `company_name` / `row_index` /
`raw_text` are kept only when they have the expected type.  A failing
element throws, aborting the whole parse (the error message's index detail
is immaterial and not modelled). -/
def parseItems : List JValue → Except String (List ExtractedItem)
  | [] => Except.ok []
  | v :: rest =>
    match jGetField v "product_code", jGetField v "business_reg_no" with
    | some (JValue.str pc), some (JValue.str brn) =>
      match parseItems rest with
      | Except.ok items =>
        Except.ok ({ product_code := pc, business_reg_no := brn,
                     company_name := asOptStr (jGetField v "company_name"),
                     row_index := asOptNum (jGetField v "row_index"),
                     raw_text := asOptStr (jGetField v "raw_text") } :: items)
      | Except.error e => Except.error e
    | _, _ => Except.error "Invalid item: missing product_code or business_reg_no"

/-- Embedding of `parseExtractionResult` (openai.ts) from the parsed JSON
value onward: `items` must be an array, `confidence` a number, every item
well-formed; `total_found` is `parsed.total_found ?? items.length` and
`raw_text` is `parsed.raw_text` (both unchecked).  The preceding
fenced-code-block stripping and `{...}` extraction are string
preprocessing of the raw model text and are not needed by any claim, so
the function takes the already-parsed value. -/
def parseExtractionResult (parsed : JValue) : Except String OpenAIExtractionResult :=
  match jGetField parsed "items" with
  | some (JValue.arr itemsJ) =>
    match jGetField parsed "confidence" with
    | some (JValue.num conf) =>
      match parseItems itemsJ with
      | Except.ok items =>
        Except.ok { items := items,
                    total_found := jsCoalesce (jGetField parsed "total_found")
                      (JValue.num items.length),
                    confidence := conf,
                    raw_text := jGetField parsed "raw_text" }
      | Except.error e => Except.error e
    | _ => Except.error "Missing or invalid confidence field"
  | _ => Except.error "Missing or invalid items array in response"

/-! ## `openai.ts`: error classification and the retry loop -/

/-- A JavaScript error value as observed by the catch block of
`extractWithOpenAI`: whether it is an `OpenAI.APIError` (which carries an
HTTP `status`), and its `message`.  An `APIError` is in particular an
`Error`, and the loop stores errors through
`error instanceof Error ? error : new Error(String(error))`, so every
caught value is modelled as carrying a message. -/
structure JsError where
  isAPIError : Bool
  status : Nat
  message : String
deriving DecidableEq

/-- Embedding of `isRetryableError` (openai.ts): for an `APIError`,
status 429 or 5xx; otherwise a message containing `'fetch'`. -/
def isRetryableError (e : JsError) : Bool :=
  if e.isAPIError then e.status == 429 || (500 ≤ e.status && e.status < 600)
  else strIncludes e.message "fetch"

/-- Embedding of `isModelNotFoundError` (openai.ts): an `APIError` with
status 404, or whose message contains both `'model'` and `'not found'`,
or contains `'does not exist'`. -/
def isModelNotFoundError (e : JsError) : Bool :=
  e.isAPIError &&
    (e.status == 404 ||
     (strIncludes e.message "model" && strIncludes e.message "not found") ||
     strIncludes e.message "does not exist")

/-- Constant `PRIMARY_MODEL` (openai.ts). -/
def PRIMARY_MODEL : String := "gpt-5-mini-2025-08-07"

/-- Constant `FALLBACK_MODEL` (openai.ts). -/
def FALLBACK_MODEL : String := "gpt-5-mini"

/-- Constant `LEGACY_FALLBACK` (openai.ts). -/
def LEGACY_FALLBACK : String := "gpt-4o-mini"

/-- Constant `MAX_RETRIES` (openai.ts). -/
def MAX_RETRIES : Nat := 3

/-- The model priority list of `getAvailableModel` (openai.ts):
`[PRIMARY_MODEL, FALLBACK_MODEL, LEGACY_FALLBACK]`. -/
def modelPriority : List String := [PRIMARY_MODEL, FALLBACK_MODEL, LEGACY_FALLBACK]

/-- Observable events of one run of the retry loop of `extractWithOpenAI`:
an API call (`client.responses.create`) at a given attempt with a given
model, or an exponential-backoff delay after a given attempt. -/
inductive OEvent where
  | call (attempt : Nat) (model : String)
  | backoff (attempt : Nat)
deriving DecidableEq

/-- Final result of the retry loop: a successful return (carrying the
attempt index and `metadata.model_used`), or `throw lastError`. -/
inductive OResult where
  | success (attempt : Nat) (model_used : String)
  | thrown (e : Option JsError)
deriving DecidableEq

/-- Embedding of the `for (let attempt = 0; ...)` retry loop of
`extractWithOpenAI` (openai.ts).  `oracle attempt model` is the outcome of
the attempt's try block (API call plus response handling): `none` for
success, `some e` for a thrown error.  The fuel argument is
`MAX_RETRIES - attempt`, so the loop structure is exactly the source's:

* a model-not-found error with a non-legacy model downgrades the model
  (`PRIMARY_MODEL → FALLBACK_MODEL`, otherwise `LEGACY_FALLBACK`) and
  continues with no backoff;
* a retryable error before the final attempt emits a backoff delay and
  continues with the same model;
* any other error falls off the end of the catch block, so the `for` loop
  simply advances to the next attempt (no backoff, same model);
* when attempts are exhausted the most recent error is thrown. -/
def extractAttemptLoop (oracle : Nat → String → Option JsError) :
    Nat → Nat → String → Option JsError → List OEvent × OResult
  | 0, _, _, lastError => ([], OResult.thrown lastError)
  | fuel + 1, attempt, modelToUse, _ =>
    match oracle attempt modelToUse with
    | none => ([OEvent.call attempt modelToUse], OResult.success attempt modelToUse)
    | some e =>
      if isModelNotFoundError e && !(modelToUse == LEGACY_FALLBACK) then
        let rest := extractAttemptLoop oracle fuel (attempt + 1)
          (if modelToUse == PRIMARY_MODEL then FALLBACK_MODEL else LEGACY_FALLBACK) (some e)
        (OEvent.call attempt modelToUse :: rest.1, rest.2)
      else if isRetryableError e && decide (attempt < MAX_RETRIES - 1) then
        let rest := extractAttemptLoop oracle fuel (attempt + 1) modelToUse (some e)
        (OEvent.call attempt modelToUse :: OEvent.backoff attempt :: rest.1, rest.2)
      else
        let rest := extractAttemptLoop oracle fuel (attempt + 1) modelToUse (some e)
        (OEvent.call attempt modelToUse :: rest.1, rest.2)

/-- Embedding of `extractWithOpenAI` (openai.ts) from the point where the
model to use has been selected (`getAvailableModel`'s result is the
`initialModel` parameter; the API key check and client construction
precede the loop and are not needed by any claim): run the retry loop
with `MAX_RETRIES` attempts starting at attempt 0 with no last error. -/
def extractWithOpenAI (oracle : Nat → String → Option JsError)
    (initialModel : String) : List OEvent × OResult :=
  extractAttemptLoop oracle MAX_RETRIES 0 initialModel none

example : extractWithOpenAI (fun _ _ => none) PRIMARY_MODEL =
    ([OEvent.call 0 PRIMARY_MODEL], OResult.success 0 PRIMARY_MODEL) := by decide
example :
    extractWithOpenAI (fun a _ => if a = 0 then some ⟨true, 429, "rate"⟩ else none)
      FALLBACK_MODEL =
    ([OEvent.call 0 FALLBACK_MODEL, OEvent.backoff 0, OEvent.call 1 FALLBACK_MODEL],
     OResult.success 1 FALLBACK_MODEL) := by decide

/-! ## `affiliateCode.ts`: data model, mock result, extraction, validation -/

/-- The `provider` enumeration `'openai' | 'mock'`. -/
inductive Provider where
  | openai
  | mock
deriving DecidableEq

/-- The fields of `EnvConfig` (`$lib/util/env`, not under `src/`) that the
extraction pipeline reads: the mock-mode flag, the minimum confidence, and
the product-code validation pattern (a `RegExp`, modelled extensionally as
the predicate it decides).  Modelled from the spec: "mock-mode flag",
"minimum confidence (default 0.6)", "product-code validation pattern
(default: five digits)". -/
structure EnvConfig where
  MOCK_LLM : Bool
  MIN_CONFIDENCE : ℚ
  PRODUCT_CODE_REGEX : String → Bool

/-- Embedding of the `ExtractionItem` interface (affiliateCode.ts). -/
structure ExtractionItem where
  product_code : String
  business_reg_no : String
  company_name : Option String
  row_index : Option ℚ
  raw_text : Option String
deriving DecidableEq

/-- Embedding of the `ExtractionResult` interface (affiliateCode.ts).
`total_found` is typed `number` but receives
`response.result.total_found`, which at runtime is an unchecked JSON
value (see `OpenAIExtractionResult`), hence `JValue`. -/
structure ExtractionResult where
  items : List ExtractionItem
  total_found : JValue
  confidence : ℚ
  provider : Provider
  request_id : String
  client_request_id : Option String
  x_request_id : Option String

/-- Embedding of the `ExtractionError` interface (affiliateCode.ts).  The
human-readable `message` field is omitted: no claim concerns it, and its
construction involves JavaScript float formatting (`toFixed`). -/
structure ExtractionError where
  error_code : String
  provider : Option Provider
  request_id : Option String
  client_request_id : Option String
  x_request_id : Option String
deriving DecidableEq

/-- Embedding of `getMockResult` (affiliateCode.ts): a fixed two-row
result for the first comma-separated target code.  `uuidv4()` is
nondeterministic and passed in as `request_id`. -/
def getMockResult (targetCode : String) (request_id : String) : ExtractionResult :=
  let firstTarget := jsTrim ((splitOnComma targetCode).headD "")
  { items := [
      { product_code := firstTarget, business_reg_no := "123-45-67890",
        company_name := some "테스트업체A", row_index := some 1,
        raw_text := some ("[MOCK] 행1: 상품번호 " ++ firstTarget ++
          ", 사업자등록번호 123-45-67890, 업체명 테스트업체A") },
      { product_code := firstTarget, business_reg_no := "987-65-43210",
        company_name := some "테스트업체B", row_index := some 2,
        raw_text := some ("[MOCK] 행2: 상품번호 " ++ firstTarget ++
          ", 사업자등록번호 987-65-43210, 업체명 테스트업체B") }],
    total_found := JValue.num 2,
    confidence := mkRat 95 100,
    provider := Provider.mock,
    request_id := request_id,
    client_request_id := none,
    x_request_id := none }

/-- JavaScript `s || ''` on a string: the empty string is falsy, every
other string is returned unchanged. -/
def jsOrEmptyString (s : String) : String :=
  if s = "" then "" else s

/-- JavaScript `x || ''` on a possibly-undefined string: `undefined` and
`''` yield `''`. -/
def jsOrEmptyOption : Option String → String
  | none => ""
  | some s => jsOrEmptyString s

/-- Embedding of `extractBusinessRegNo` (affiliateCode.ts).  In mock mode
the network is bypassed and `getMockResult` is returned (`mockRequestId`
stands for the `uuidv4()` call).  Otherwise the awaited result of
`extractWithOpenAI` — abstracted as the `response` parameter, since the
claims about this function concern only the result conversion — is mapped
into an `ExtractionResult`, coercing `business_reg_no` and `company_name`
through `|| ''`. -/
def extractBusinessRegNo (imageBase64 mimeType targetCode : String)
    (config : EnvConfig) (response : OpenAIResponse) (mockRequestId : String) :
    ExtractionResult :=
  if config.MOCK_LLM then getMockResult targetCode mockRequestId
  else
    { items := response.result.items.map (fun item =>
        { product_code := item.product_code,
          business_reg_no := jsOrEmptyString item.business_reg_no,
          company_name := some (jsOrEmptyOption item.company_name),
          row_index := item.row_index,
          raw_text := item.raw_text }),
      total_found := response.result.total_found,
      confidence := response.result.confidence,
      provider := Provider.openai,
      request_id := response.metadata.client_request_id,
      client_request_id := some response.metadata.client_request_id,
      x_request_id := response.metadata.x_request_id }

/-- The per-item normalization loop body of `validateExtractionResult`
(affiliateCode.ts): `if (item.business_reg_no) { item.business_reg_no =
normalizeBusinessRegNo(item.business_reg_no); }` — the empty string is
falsy, so empty registration numbers are left untouched. -/
def normalizeItemRegNo (item : ExtractionItem) : ExtractionItem :=
  if item.business_reg_no = "" then item
  else { item with business_reg_no := normalizeBusinessRegNo item.business_reg_no }

/-- Embedding of `validateExtractionResult` (affiliateCode.ts).  The
TypeScript function throws on failure and mutates `result.items` in place
on success; the embedding returns the thrown error (if any) together with
the post-call state of the result:

* empty `items` → throw the `extraction_failed` error, state unchanged;
* `confidence < config.MIN_CONFIDENCE` → throw the `low_confidence`
  error, state unchanged;
* otherwise no error, and every item's `business_reg_no` is normalized. -/
def validateExtractionResult (result : ExtractionResult) (config : EnvConfig) :
    Option ExtractionError × ExtractionResult :=
  if result.items.length = 0 then
    (some { error_code := "extraction_failed",
            provider := some result.provider,
            request_id := some result.request_id,
            client_request_id := result.client_request_id,
            x_request_id := result.x_request_id }, result)
  else if result.confidence < config.MIN_CONFIDENCE then
    (some { error_code := "low_confidence",
            provider := some result.provider,
            request_id := some result.request_id,
            client_request_id := result.client_request_id,
            x_request_id := result.x_request_id }, result)
  else
    (none, { result with items := result.items.map normalizeItemRegNo })

/-! ## The `POST /api/process-once` route handler -/

/-- The uploaded file as the handler observes it (`formData.get('image')`
when it is a `File`). -/
structure FileData where
  size : Nat
  mimeType : String

/-- Constant `MAX_PAYLOAD_SIZE` (route handler): 4.5 MB. -/
def MAX_PAYLOAD_SIZE : Nat := 4500000

/-- The `allowedTypes` list of the route handler. -/
def allowedTypes : List String := ["image/jpeg", "image/png", "image/webp", "image/gif"]

/-- Observable outcome of the route handler's validation pipeline:
either an early JSON error response (error code and HTTP status), or
reaching step 10, the call
`extractBusinessRegNo(imageBase64, file.type, productCodes.join(','), config)`
to the model provider, with the joined code list it receives. -/
inductive ProcessOutcome where
  | rejected (error_code : String) (status : Nat)
  | extracted (joinedCodes : String)
deriving DecidableEq

/-- Embedding of steps 4–10 of the `POST` route handler
(`/api/process-once`): product-code extraction and validation, file
presence/size/type checks, then the provider call.  `targetCodeRaw` is
`formData.get('productCode')` (`none` when absent or not a string; the
explicit empty-string test mirrors the falsiness test `!targetCodeRaw`),
and `file` is `formData.get('image')` (`none` when absent or not a
`File`).  Steps 1–3 (config load, content type, form parsing) precede the
product-code handling and reject with other error codes; the claims about
this handler quantify over successfully submitted product-code lists, so
those steps are upstream of this embedding. -/
def POST (targetCodeRaw : Option String) (file : Option FileData)
    (pattern : String → Bool) : ProcessOutcome :=
  match targetCodeRaw with
  | none => ProcessOutcome.rejected "missing_product_code" 400
  | some raw =>
    if raw == "" then ProcessOutcome.rejected "missing_product_code" 400
    else
      let productCodes := ((splitOnComma raw).map normalizeProductCode).filter
        (fun c => decide (0 < c.length))
      let invalidCodes := productCodes.filter
        (fun code => !(validateProductCode code pattern))
      if productCodes.length = 0 then
        ProcessOutcome.rejected "invalid_product_code" 400
      else if 0 < invalidCodes.length then
        ProcessOutcome.rejected "invalid_product_code" 400
      else
        match file with
        | none => ProcessOutcome.rejected "missing_file" 400
        | some f =>
          if MAX_PAYLOAD_SIZE < f.size then
            ProcessOutcome.rejected "payload_too_large" 413
          else if !(allowedTypes.contains f.mimeType) then
            ProcessOutcome.rejected "invalid_file_type" 400
          else
            ProcessOutcome.extracted (joinWith productCodes ",")

example :
    POST (some "12345") (some { size := 100, mimeType := "image/png" })
      (fun s => decide (s.length = 5)) = ProcessOutcome.extracted "12345" := by decide
example :
    POST (some "1234") (some { size := 100, mimeType := "image/png" })
      (fun s => decide (s.length = 5)) =
      ProcessOutcome.rejected "invalid_product_code" 400 := by decide
example :
    POST (some "12345") (some { size := 5000000, mimeType := "image/png" })
      (fun s => decide (s.length = 5)) =
      ProcessOutcome.rejected "payload_too_large" 413 := by decide

/-! ## Concrete fixtures used by witnesses -/

/-- A configuration with mock mode off, the default minimum confidence 0.6
and the default five-digit product-code pattern. -/
def cfgDefault : EnvConfig :=
  { MOCK_LLM := false, MIN_CONFIDENCE := mkRat 6 10,
    PRODUCT_CODE_REGEX := fun s => decide (s.length = 5) && s.data.all Char.isDigit }

/-- `cfgDefault` with mock mode on. -/
def cfgMock : EnvConfig :=
  { MOCK_LLM := true, MIN_CONFIDENCE := mkRat 6 10,
    PRODUCT_CODE_REGEX := fun s => decide (s.length = 5) && s.data.all Char.isDigit }

/-- The spec scenario `{"items": [], "total_found": 0, "confidence": 0}`
converted to an `ExtractionResult`. -/
def emptyZeroConfResult : ExtractionResult :=
  { items := [], total_found := JValue.num 0, confidence := 0,
    provider := Provider.openai, request_id := "req-1",
    client_request_id := none, x_request_id := none }

/-- A one-item result whose confidence 0.5 is below the 0.6 threshold. -/
def lowConfResult : ExtractionResult :=
  { items := [{ product_code := "03269", business_reg_no := "1234567890",
                company_name := some "A", row_index := some 1, raw_text := none }],
    total_found := JValue.num 1, confidence := mkRat 5 10,
    provider := Provider.openai, request_id := "req-2",
    client_request_id := some "cid-2", x_request_id := none }

/-- A placeholder provider response for instantiating mock-mode claims. -/
def dummyOpenAIResponse : OpenAIResponse :=
  { result := { items := [], total_found := JValue.num 0, confidence := 0, raw_text := none },
    metadata := { client_request_id := "cid-0", x_request_id := none,
                  model_used := FALLBACK_MODEL } }

/-! ## C2: emptiness is checked before confidence -/

/-- C2: `validateExtractionResult` checks emptiness before confidence.
For every result with an empty `items` list it throws the
`extraction_failed` error (whatever the confidence, including 0), and for
every non-empty result the thrown error is `low_confidence` exactly when
the confidence is strictly below the configured minimum (and nothing is
thrown otherwise). -/
theorem validateExtractionResult_empty_before_confidence
    (r : ExtractionResult) (cfg : EnvConfig) :
    (r.items.length = 0 →
      (validateExtractionResult r cfg).1.map ExtractionError.error_code =
        some "extraction_failed") ∧
    (r.items.length ≠ 0 →
      (validateExtractionResult r cfg).1.map ExtractionError.error_code =
        (if r.confidence < cfg.MIN_CONFIDENCE then some "low_confidence" else none)) := by
  constructor
  · intro h
    simp [validateExtractionResult, h]
  · intro h
    by_cases hc : r.confidence < cfg.MIN_CONFIDENCE <;>
      simp [validateExtractionResult, h, hc]

/-- Witness for C2: the spec scenario (empty items, confidence 0) is
rejected with `extraction_failed`, not `low_confidence`, while a
non-empty result with confidence 0.5 < 0.6 is rejected with
`low_confidence`. -/
theorem validateExtractionResult_empty_before_confidence_witness :
    (validateExtractionResult emptyZeroConfResult cfgDefault).1.map
      ExtractionError.error_code = some "extraction_failed" ∧
    (validateExtractionResult lowConfResult cfgDefault).1.map
      ExtractionError.error_code = some "low_confidence" := by
  constructor
  · exact (validateExtractionResult_empty_before_confidence
      emptyZeroConfResult cfgDefault).1 rfl
  · have h := (validateExtractionResult_empty_before_confidence
      lowConfResult cfgDefault).2 (by decide)
    rw [h]
    decide

/-! ## C9: validation is atomic on failure -/

/-- C9: `validateExtractionResult` is atomic on failure — whenever it
throws (empty items or low confidence), the result record, including
every field of every item, is exactly the input; normalization happens
only on the success path. -/
theorem validateExtractionResult_atomic_on_failure
    (r : ExtractionResult) (cfg : EnvConfig) (e : ExtractionError)
    (r' : ExtractionResult)
    (h : validateExtractionResult r cfg = (some e, r')) : r' = r := by
  unfold validateExtractionResult at h
  split at h
  · simp only [Prod.mk.injEq] at h
    exact h.2.symm
  · split at h
    · simp only [Prod.mk.injEq] at h
      exact h.2.symm
    · simp at h

/-- Witness for C9: a throwing call (empty items) leaves the result state
unchanged. -/
theorem validateExtractionResult_atomic_on_failure_witness :
    (validateExtractionResult emptyZeroConfResult cfgDefault).2 = emptyZeroConfResult :=
  validateExtractionResult_atomic_on_failure emptyZeroConfResult cfgDefault
    { error_code := "extraction_failed", provider := some Provider.openai,
      request_id := some "req-1", client_request_id := none, x_request_id := none }
    ((validateExtractionResult emptyZeroConfResult cfgDefault).2) rfl

/-! ## C6: non-10-digit inputs are trimmed, not returned unmodified -/

/-- Counterexample for C6 as stated: `" 12 "` strips to 2 digits, so the
claim says it is returned unmodified, but the code returns
`businessRegNo.trim()`, i.e. `"12"`. -/
theorem normalizeBusinessRegNo_trims_counterexample :
    ((" 12 " : String).data.filter Char.isDigit).length ≠ 10 ∧
    normalizeBusinessRegNo " 12 " ≠ " 12 " := by decide

/-- C6 (amended): for every input whose digit-stripped form does not have
exactly 10 digits, `normalizeBusinessRegNo` returns the original string
trimmed of surrounding whitespace — in particular unmodified whenever the
input has no leading or trailing whitespace. -/
theorem normalizeBusinessRegNo_non10_returns_trimmed (s : String)
    (h : (s.data.filter Char.isDigit).length ≠ 10) :
    normalizeBusinessRegNo s = jsTrim s := by
  simp only [normalizeBusinessRegNo]
  rw [if_neg h]

/-- Witness for amended C6 at the whitespace-free input `"1234"`. -/
theorem normalizeBusinessRegNo_non10_returns_trimmed_witness :
    normalizeBusinessRegNo "1234" = jsTrim "1234" ∧ jsTrim "1234" = "1234" :=
  ⟨normalizeBusinessRegNo_non10_returns_trimmed "1234" (by decide), by decide⟩

/-! ## C8: the mock result -/

/-- C8: with mock mode enabled and target code `"12345"`,
`extractBusinessRegNo` returns exactly 2 items, confidence 0.95
(`mkRat 95 100`), provider `mock`, and registration numbers
`123-45-67890` then `987-65-43210`, for every image payload, provider
response and request id. -/
theorem extractBusinessRegNo_mock_result (imageBase64 mimeType : String)
    (config : EnvConfig) (response : OpenAIResponse) (rid : String)
    (hmock : config.MOCK_LLM = true) :
    (extractBusinessRegNo imageBase64 mimeType "12345" config response rid).items.length = 2 ∧
    (extractBusinessRegNo imageBase64 mimeType "12345" config response rid).confidence =
      mkRat 95 100 ∧
    (extractBusinessRegNo imageBase64 mimeType "12345" config response rid).provider =
      Provider.mock ∧
    (extractBusinessRegNo imageBase64 mimeType "12345" config response rid).items.map
      ExtractionItem.business_reg_no = ["123-45-67890", "987-65-43210"] := by
  simp only [extractBusinessRegNo]
  rw [if_pos hmock]
  exact ⟨rfl, rfl, rfl, rfl⟩

/-- Witness for C8 at a concrete mock-mode configuration and arbitrary
fixed payload/response. -/
theorem extractBusinessRegNo_mock_result_witness :
    (extractBusinessRegNo "" "" "12345" cfgMock dummyOpenAIResponse "rid").items.length = 2 ∧
    (extractBusinessRegNo "" "" "12345" cfgMock dummyOpenAIResponse "rid").confidence =
      mkRat 95 100 ∧
    (extractBusinessRegNo "" "" "12345" cfgMock dummyOpenAIResponse "rid").provider =
      Provider.mock ∧
    (extractBusinessRegNo "" "" "12345" cfgMock dummyOpenAIResponse "rid").items.map
      ExtractionItem.business_reg_no = ["123-45-67890", "987-65-43210"] :=
  extractBusinessRegNo_mock_result "" "" cfgMock dummyOpenAIResponse "rid" rfl

/-! ## C3: the `total_found` default -/

/-- A parsed response whose `total_found` is the (non-numeric) string
`"7"` while `items` is empty. -/
def parsedStrTotalFound : JValue :=
  JValue.obj [("items", JValue.arr []), ("total_found", JValue.str "7"),
              ("confidence", JValue.num 1)]

/-- Counterexample for C3 as stated: on a parsed response whose
`total_found` is the string `"7"` (not a number) and whose `items` array
is empty, `parseExtractionResult` returns `total_found = "7"` unchanged —
not the parsed item count `0` that the claim requires, because `??` only
defaults on `null`/`undefined`. -/
theorem parseExtractionResult_total_found_counterexample :
    (parseExtractionResult parsedStrTotalFound).map OpenAIExtractionResult.total_found =
      Except.ok (JValue.str "7") ∧
    ¬ (parseExtractionResult parsedStrTotalFound).map OpenAIExtractionResult.total_found =
      Except.ok (JValue.num 0) := by
  refine ⟨rfl, fun hcontra => ?_⟩
  have h2 : Except.ok (ε := String) (JValue.str "7") = Except.ok (JValue.num 0) :=
    (show (parseExtractionResult parsedStrTotalFound).map OpenAIExtractionResult.total_found =
      Except.ok (JValue.str "7") from rfl).symm.trans hcontra
  injection h2 with h3
  exact JValue.noConfusion h3

/-- C3 (amended): in every successfully parsed model response,
`total_found` defaults to the parsed item count when the field is absent
(`undefined`) or `null`, and every present non-`null` value — including a
non-numeric one — is returned unchanged (`??` performs no number-type
check).  Both directions of the behaviour are stated: the default on the
absent-or-null cases, and the universal pass-through on all remaining
cases. -/
theorem parseExtractionResult_total_found_default (parsed : JValue)
    (r : OpenAIExtractionResult)
    (h : parseExtractionResult parsed = Except.ok r) :
    ((jGetField parsed "total_found" = none ∨
      jGetField parsed "total_found" = some JValue.null) →
      r.total_found = JValue.num r.items.length) ∧
    (∀ v : JValue, jGetField parsed "total_found" = some v → v ≠ JValue.null →
      r.total_found = v) := by
  unfold parseExtractionResult at h
  split at h
  · split at h
    · split at h
      · simp only [Except.ok.injEq] at h
        subst h
        constructor
        · intro htf
          rcases htf with h1 | h1 <;> rw [h1] <;> rfl
        · intro v hv hne
          rw [hv]
          cases v
          · exact absurd rfl hne
          · rfl
          · rfl
          · rfl
          · rfl
          · rfl
      · simp at h
    · simp at h
  · simp at h

/-- A parsed response with one item and no `total_found` field. -/
def parsedAbsentTotalFound : JValue :=
  JValue.obj [("items", JValue.arr [JValue.obj
                [("product_code", JValue.str "03269"),
                 ("business_reg_no", JValue.str "")]]),
              ("confidence", JValue.num (mkRat 9 10))]

/-- The parse result of `parsedAbsentTotalFound`. -/
def parsedAbsentTotalFoundResult : OpenAIExtractionResult :=
  { items := [{ product_code := "03269", business_reg_no := "",
                company_name := none, row_index := none, raw_text := none }],
    total_found := JValue.num ((1 : ℕ) : ℚ), confidence := mkRat 9 10,
    raw_text := none }

/-- The parse result of `parsedStrTotalFound`. -/
def parsedStrTotalFoundResult : OpenAIExtractionResult :=
  { items := [], total_found := JValue.str "7", confidence := 1,
    raw_text := none }

/-- Witness for amended C3, exercising both directions: with
`total_found` absent the returned value is the parsed item count, and
with the present non-null (non-numeric) value `"7"` that value is
returned unchanged. -/
theorem parseExtractionResult_total_found_default_witness :
    parsedAbsentTotalFoundResult.total_found =
      JValue.num parsedAbsentTotalFoundResult.items.length ∧
    parsedStrTotalFoundResult.total_found = JValue.str "7" :=
  ⟨(parseExtractionResult_total_found_default parsedAbsentTotalFound
      parsedAbsentTotalFoundResult rfl).1 (Or.inl rfl),
   (parseExtractionResult_total_found_default parsedStrTotalFound
      parsedStrTotalFoundResult rfl).2 (JValue.str "7") rfl
      (fun hcon => JValue.noConfusion hcon)⟩

/-! ## C7: one invalid code rejects the whole request -/

/-- C7: if any normalized non-empty product code in the submitted list
fails the configured pattern, the handler rejects the whole request with
the `invalid_product_code` error (HTTP 400) — whatever the uploaded file
— and in particular never reaches the provider call (`extracted`); there
is no partial acceptance of the valid codes. -/
theorem POST_invalid_code_rejects_whole_request (raw : String)
    (file : Option FileData) (pattern : String → Bool) (code : String)
    (hc : code ∈ ((splitOnComma raw).map normalizeProductCode).filter
      (fun c => decide (0 < c.length)))
    (hfail : pattern code = false) :
    POST (some raw) file pattern = ProcessOutcome.rejected "invalid_product_code" 400 := by
  have hraw : ¬ raw = "" := by
    intro hr
    subst hr
    exact List.not_mem_nil code hc
  have hbeq : (raw == "") = false := beq_eq_false_iff_ne.mpr hraw
  simp only [POST, hbeq, Bool.false_eq_true, if_false]
  have hne : ((splitOnComma raw).map normalizeProductCode).filter
      (fun c => decide (0 < c.length)) ≠ [] := List.ne_nil_of_mem hc
  have h0 : ¬ (((splitOnComma raw).map normalizeProductCode).filter
      (fun c => decide (0 < c.length))).length = 0 := by
    simpa [List.length_eq_zero] using hne
  rw [if_neg h0]
  have hmem : code ∈ (((splitOnComma raw).map normalizeProductCode).filter
      (fun c => decide (0 < c.length))).filter
        (fun c => !(validateProductCode c pattern)) :=
    List.mem_filter.mpr ⟨hc, by simp [validateProductCode, hfail]⟩
  have hpos : 0 < ((((splitOnComma raw).map normalizeProductCode).filter
      (fun c => decide (0 < c.length))).filter
        (fun c => !(validateProductCode c pattern))).length :=
    List.length_pos.mpr (List.ne_nil_of_mem hmem)
  rw [if_pos hpos]

/-- Witness for C7: the list `"12345,99"` under the default five-digit
pattern contains the invalid code `"99"`, so the whole request is
rejected. -/
theorem POST_invalid_code_rejects_whole_request_witness :
    POST (some "12345,99") none cfgDefault.PRODUCT_CODE_REGEX =
      ProcessOutcome.rejected "invalid_product_code" 400 :=
  POST_invalid_code_rejects_whole_request "12345,99" none
    cfgDefault.PRODUCT_CODE_REGEX "99" (by decide) (by decide)

/-! ## C1 / C4: behaviour of the retry loop -/

/-- One loop step on an error that is neither model-not-found nor
retryable: the catch block ends without `throw`, `break` or `continue`,
so the `for` loop simply advances — same model, no backoff event, last
error updated. -/
theorem extractAttemptLoop_other_error_step (oracle : Nat → String → Option JsError)
    (fuel attempt : Nat) (m : String) (lastError : Option JsError) (e : JsError)
    (ho : oracle attempt m = some e)
    (hr : isRetryableError e = false) (hm : isModelNotFoundError e = false) :
    extractAttemptLoop oracle (fuel + 1) attempt m lastError =
      (OEvent.call attempt m ::
        (extractAttemptLoop oracle fuel (attempt + 1) m (some e)).1,
       (extractAttemptLoop oracle fuel (attempt + 1) m (some e)).2) := by
  simp [extractAttemptLoop, ho, hr, hm]

/-- An `APIError` with HTTP status 400 — neither retryable nor a
model-not-found error. -/
def eBadRequest : JsError := { isAPIError := true, status := 400, message := "Bad request" }

/-- An `APIError` with HTTP status 401. -/
def eUnauthorized : JsError := { isAPIError := true, status := 401, message := "Unauthorized" }

/-- An `APIError` with HTTP status 403. -/
def eForbidden : JsError := { isAPIError := true, status := 403, message := "Forbidden" }

/-- An oracle whose every attempt fails with `eBadRequest`. -/
def oracleBadRequest : Nat → String → Option JsError := fun _ _ => some eBadRequest

/-- An oracle failing with `eBadRequest`, `eUnauthorized`, `eForbidden`
on attempts 0, 1, 2. -/
def oracleThreeErrors : Nat → String → Option JsError := fun attempt _ =>
  if attempt = 0 then some eBadRequest
  else if attempt = 1 then some eUnauthorized
  else some eForbidden

/-- Counterexample for C1 as stated: a 400 `APIError` is neither
retryable nor model-not-found, yet after it fails attempt 0 the loop
makes two further API calls (attempts 1 and 2) before throwing — the
claim that "no further API attempt is made" is false on the code. -/
theorem extractWithOpenAI_nonretryable_counterexample :
    isRetryableError eBadRequest = false ∧
    isModelNotFoundError eBadRequest = false ∧
    extractWithOpenAI oracleBadRequest PRIMARY_MODEL =
      ([OEvent.call 0 PRIMARY_MODEL, OEvent.call 1 PRIMARY_MODEL,
        OEvent.call 2 PRIMARY_MODEL],
       OResult.thrown (some eBadRequest)) := by decide

/-- C1 (amended): when every attempt fails with an error that is neither
model-not-found nor retryable, no backoff delay is ever inserted, but the
loop still proceeds through all `MAX_RETRIES` attempts (re-calling the
API with the same model each time), and after exhausting the attempts the
most recent error is thrown. -/
theorem extractWithOpenAI_nonretryable_retries_without_backoff
    (oracle : Nat → String → Option JsError) (m : String) (e0 e1 e2 : JsError)
    (h0 : oracle 0 m = some e0) (h1 : oracle 1 m = some e1) (h2 : oracle 2 m = some e2)
    (hr0 : isRetryableError e0 = false) (hm0 : isModelNotFoundError e0 = false)
    (hr1 : isRetryableError e1 = false) (hm1 : isModelNotFoundError e1 = false)
    (hr2 : isRetryableError e2 = false) (hm2 : isModelNotFoundError e2 = false) :
    extractWithOpenAI oracle m =
      ([OEvent.call 0 m, OEvent.call 1 m, OEvent.call 2 m],
       OResult.thrown (some e2)) := by
  show extractAttemptLoop oracle (2 + 1) 0 m none = _
  rw [extractAttemptLoop_other_error_step oracle 2 0 m none e0 h0 hr0 hm0]
  rw [show (2 : Nat) = 1 + 1 from rfl,
    extractAttemptLoop_other_error_step oracle 1 (0 + 1) m (some e0) e1 h1 hr1 hm1]
  rw [show (1 : Nat) = 0 + 1 from rfl,
    extractAttemptLoop_other_error_step oracle 0 (0 + 1 + 1) m (some e1) e2 h2 hr2 hm2]
  rfl

/-- Witness for amended C1: three successive non-retryable errors produce
three API calls, no backoff, and the final (most recent) error thrown. -/
theorem extractWithOpenAI_nonretryable_retries_without_backoff_witness :
    extractWithOpenAI oracleThreeErrors PRIMARY_MODEL =
      ([OEvent.call 0 PRIMARY_MODEL, OEvent.call 1 PRIMARY_MODEL,
        OEvent.call 2 PRIMARY_MODEL],
       OResult.thrown (some eForbidden)) :=
  extractWithOpenAI_nonretryable_retries_without_backoff oracleThreeErrors
    PRIMARY_MODEL eBadRequest eUnauthorized eForbidden rfl rfl rfl
    (by decide) (by decide) (by decide) (by decide) (by decide) (by decide)

/-- C4: when an attempt fails with a model-not-found error and the
current model is `PRIMARY_MODEL` or `FALLBACK_MODEL` (i.e. not the last
entry of the priority list `modelPriority`), the loop immediately
continues with the next model of the priority list — `PRIMARY_MODEL ↦
FALLBACK_MODEL`, `FALLBACK_MODEL ↦ LEGACY_FALLBACK` — inserting no
backoff delay and not throwing. -/
theorem extractWithOpenAI_model_fallback (oracle : Nat → String → Option JsError)
    (fuel attempt : Nat) (lastError : Option JsError) (m : String) (e : JsError)
    (hm : m = PRIMARY_MODEL ∨ m = FALLBACK_MODEL)
    (ho : oracle attempt m = some e)
    (he : isModelNotFoundError e = true) :
    extractAttemptLoop oracle (fuel + 1) attempt m lastError =
      (OEvent.call attempt m ::
        (extractAttemptLoop oracle fuel (attempt + 1)
          (if m == PRIMARY_MODEL then FALLBACK_MODEL else LEGACY_FALLBACK) (some e)).1,
       (extractAttemptLoop oracle fuel (attempt + 1)
          (if m == PRIMARY_MODEL then FALLBACK_MODEL else LEGACY_FALLBACK) (some e)).2) ∧
    (m = PRIMARY_MODEL →
      (if m == PRIMARY_MODEL then FALLBACK_MODEL else LEGACY_FALLBACK) = FALLBACK_MODEL) ∧
    (m = FALLBACK_MODEL →
      (if m == PRIMARY_MODEL then FALLBACK_MODEL else LEGACY_FALLBACK) = LEGACY_FALLBACK) := by
  have hleg : (m == LEGACY_FALLBACK) = false := by
    rcases hm with h | h <;> subst h <;> decide
  refine ⟨?_, ?_, ?_⟩
  · simp [extractAttemptLoop, ho, he, hleg]
  · intro h; subst h; decide
  · intro h; subst h; decide

/-- A model-not-found `APIError` (HTTP 404). -/
def eModelNotFound : JsError :=
  { isAPIError := true, status := 404, message := "The model does not exist" }

/-- An oracle whose every attempt fails with `eModelNotFound`. -/
def oracleModelNotFound : Nat → String → Option JsError := fun _ _ => some eModelNotFound

/-- Witness for C4: a 404 on the primary model at attempt 0 makes the
loop continue immediately with `FALLBACK_MODEL` and no backoff event. -/
theorem extractWithOpenAI_model_fallback_witness :
    extractAttemptLoop oracleModelNotFound 3 0 PRIMARY_MODEL none =
      (OEvent.call 0 PRIMARY_MODEL ::
        (extractAttemptLoop oracleModelNotFound 2 1 FALLBACK_MODEL (some eModelNotFound)).1,
       (extractAttemptLoop oracleModelNotFound 2 1 FALLBACK_MODEL (some eModelNotFound)).2) := by
  have h := (extractWithOpenAI_model_fallback oracleModelNotFound 2 0 none PRIMARY_MODEL
    eModelNotFound (Or.inl rfl) rfl rfl).1
  simpa using h

/-! ## C5: normalization of 10-digit strings -/

/-- C5: on every input consisting of exactly 10 digits,
`normalizeBusinessRegNo` is idempotent and its output matches
`\d{3}-\d{2}-\d{5}`. -/
theorem normalizeBusinessRegNo_idempotent_format (s : String)
    (hlen : s.data.length = 10) (hdig : ∀ c ∈ s.data, c.isDigit = true) :
    normalizeBusinessRegNo (normalizeBusinessRegNo s) = normalizeBusinessRegNo s ∧
    matchesBizRegFormat (normalizeBusinessRegNo s) = true := by
  obtain ⟨c0, c1, c2, c3, c4, c5, c6, c7, c8, c9, hl⟩ :=
    list_len10_destruct s.data hlen
  have h0 : c0.isDigit = true := hdig c0 (by rw [hl]; simp)
  have h1 : c1.isDigit = true := hdig c1 (by rw [hl]; simp)
  have h2 : c2.isDigit = true := hdig c2 (by rw [hl]; simp)
  have h3 : c3.isDigit = true := hdig c3 (by rw [hl]; simp)
  have h4 : c4.isDigit = true := hdig c4 (by rw [hl]; simp)
  have h5 : c5.isDigit = true := hdig c5 (by rw [hl]; simp)
  have h6 : c6.isDigit = true := hdig c6 (by rw [hl]; simp)
  have h7 : c7.isDigit = true := hdig c7 (by rw [hl]; simp)
  have h8 : c8.isDigit = true := hdig c8 (by rw [hl]; simp)
  have h9 : c9.isDigit = true := hdig c9 (by rw [hl]; simp)
  have hdash : ('-').isDigit = false := by decide
  have hfil : List.filter Char.isDigit [c0, c1, c2, c3, c4, c5, c6, c7, c8, c9] =
      [c0, c1, c2, c3, c4, c5, c6, c7, c8, c9] := by
    simp [List.filter_cons, h0, h1, h2, h3, h4, h5, h6, h7, h8, h9]
  have hform : normalizeBusinessRegNo s =
      String.mk [c0, c1, c2, '-', c3, c4, '-', c5, c6, c7, c8, c9] := by
    simp only [normalizeBusinessRegNo, hl, hfil]
    rw [if_pos (by simp)]
    rfl
  constructor
  · rw [hform]
    have hfil2 : List.filter Char.isDigit
        [c0, c1, c2, '-', c3, c4, '-', c5, c6, c7, c8, c9] =
        [c0, c1, c2, c3, c4, c5, c6, c7, c8, c9] := by
      simp [List.filter_cons, h0, h1, h2, h3, h4, h5, h6, h7, h8, h9, hdash]
    show normalizeBusinessRegNo
        (String.mk [c0, c1, c2, '-', c3, c4, '-', c5, c6, c7, c8, c9]) = _
    simp only [normalizeBusinessRegNo]
    rw [hfil2]
    rw [if_pos (by simp)]
    rfl
  · rw [hform]
    simp [matchesBizRegFormat, h0, h1, h2, h3, h4, h5, h6, h7, h8, h9]

/-- Witness for C5 at the 10-digit input `"0123456789"`. -/
theorem normalizeBusinessRegNo_idempotent_format_witness :
    normalizeBusinessRegNo (normalizeBusinessRegNo "0123456789") =
      normalizeBusinessRegNo "0123456789" ∧
    matchesBizRegFormat (normalizeBusinessRegNo "0123456789") = true :=
  normalizeBusinessRegNo_idempotent_format "0123456789" (by decide) (by decide)

/-! ## C10: string coercion and preservation of empty registration numbers -/

/-- The non-mock branch of `extractBusinessRegNo` written out as a record
equation, for reasoning about the conversion. -/
theorem extractBusinessRegNo_nonmock (imageBase64 mimeType targetCode : String)
    (config : EnvConfig) (response : OpenAIResponse) (rid : String)
    (hmock : config.MOCK_LLM = false) :
    extractBusinessRegNo imageBase64 mimeType targetCode config response rid =
      { items := response.result.items.map (fun item =>
          { product_code := item.product_code,
            business_reg_no := jsOrEmptyString item.business_reg_no,
            company_name := some (jsOrEmptyOption item.company_name),
            row_index := item.row_index,
            raw_text := item.raw_text }),
        total_found := response.result.total_found,
        confidence := response.result.confidence,
        provider := Provider.openai,
        request_id := response.metadata.client_request_id,
        client_request_id := some response.metadata.client_request_id,
        x_request_id := response.metadata.x_request_id } := by
  simp only [extractBusinessRegNo]
  rw [if_neg (by simp [hmock])]

/-- The success path of `validateExtractionResult` keeps an empty
`business_reg_no` empty: the normalization loop skips falsy values. -/
theorem validateExtractionResult_keeps_empty_regno (r : ExtractionResult)
    (cfg : EnvConfig) (h : (validateExtractionResult r cfg).1 = none) (i : Nat)
    (hb : (r.items[i]?).map ExtractionItem.business_reg_no = some "") :
    ((validateExtractionResult r cfg).2.items[i]?).map
      ExtractionItem.business_reg_no = some "" := by
  unfold validateExtractionResult at h ⊢
  by_cases h1 : r.items.length = 0
  · rw [if_pos h1] at h
    simp at h
  · rw [if_neg h1] at h ⊢
    by_cases h2 : r.confidence < cfg.MIN_CONFIDENCE
    · rw [if_pos h2] at h
      simp at h
    · rw [if_neg h2]
      show ((r.items.map normalizeItemRegNo)[i]?).map
        ExtractionItem.business_reg_no = some ""
      rw [List.getElem?_map normalizeItemRegNo r.items i]
      cases hx : r.items[i]? with
      | none => rw [hx] at hb; simp at hb
      | some it =>
        rw [hx] at hb
        have hempty : it.business_reg_no = "" := by simpa using hb
        simp [normalizeItemRegNo, hempty]

/-- C10: in every non-mock call of `extractBusinessRegNo`, every returned
item's `company_name` is a string (never `undefined`); a missing
`company_name` and an empty (`falsy`) `business_reg_no` are coerced to
the empty string by `|| ''`; and when `validateExtractionResult`
succeeds, its normalization loop skips empty registration numbers, so the
empty string survives validation. -/
theorem extractBusinessRegNo_string_coercion_preserved
    (imageBase64 mimeType targetCode : String) (config : EnvConfig)
    (response : OpenAIResponse) (rid : String)
    (hmock : config.MOCK_LLM = false) :
    (∀ item ∈ (extractBusinessRegNo imageBase64 mimeType targetCode config
        response rid).items, item.company_name ≠ none) ∧
    (∀ i : Nat,
      (response.result.items[i]?).map ExtractedItem.company_name = some none →
      ((extractBusinessRegNo imageBase64 mimeType targetCode config response
        rid).items[i]?).map ExtractionItem.company_name = some (some "")) ∧
    (∀ i : Nat,
      (response.result.items[i]?).map ExtractedItem.business_reg_no = some "" →
      ((extractBusinessRegNo imageBase64 mimeType targetCode config response
        rid).items[i]?).map ExtractionItem.business_reg_no = some "") ∧
    ((validateExtractionResult (extractBusinessRegNo imageBase64 mimeType
        targetCode config response rid) config).1 = none →
      ∀ i : Nat,
      ((extractBusinessRegNo imageBase64 mimeType targetCode config response
        rid).items[i]?).map ExtractionItem.business_reg_no = some "" →
      ((validateExtractionResult (extractBusinessRegNo imageBase64 mimeType
        targetCode config response rid) config).2.items[i]?).map
        ExtractionItem.business_reg_no = some "") := by
  rw [extractBusinessRegNo_nonmock imageBase64 mimeType targetCode config
    response rid hmock]
  refine ⟨?_, ?_, ?_, ?_⟩
  · intro item hmem
    simp only [List.mem_map] at hmem
    obtain ⟨a, _, rfl⟩ := hmem
    simp
  · intro i h
    simp only [List.getElem?_map]
    cases hx : response.result.items[i]? with
    | none => rw [hx] at h; simp at h
    | some a =>
      rw [hx] at h
      have hnone : a.company_name = none := by simpa using h
      simp [hnone, jsOrEmptyOption]
  · intro i h
    simp only [List.getElem?_map]
    cases hx : response.result.items[i]? with
    | none => rw [hx] at h; simp at h
    | some a =>
      rw [hx] at h
      have hempty : a.business_reg_no = "" := by simpa using h
      simp [hempty, jsOrEmptyString]
  · intro hval i hb
    exact validateExtractionResult_keeps_empty_regno _ config hval i hb

/-- A provider response with one item whose `business_reg_no` is empty
and whose `company_name` is absent. -/
def responseEmptyFields : OpenAIResponse :=
  { result := { items := [{ product_code := "03269", business_reg_no := "",
                            company_name := none, row_index := none, raw_text := none }],
                total_found := JValue.num 1, confidence := mkRat 9 10, raw_text := none },
    metadata := { client_request_id := "cid-10", x_request_id := none,
                  model_used := "gpt-5-mini" } }

/-- Witness for C10: the missing `company_name` comes back as `""`, and
the empty `business_reg_no` is still `""` after a successful
validation. -/
theorem extractBusinessRegNo_string_coercion_preserved_witness :
    ((extractBusinessRegNo "" "" "03269" cfgDefault responseEmptyFields
        "rid").items[0]?).map ExtractionItem.company_name = some (some "") ∧
    ((validateExtractionResult (extractBusinessRegNo "" "" "03269" cfgDefault
        responseEmptyFields "rid") cfgDefault).2.items[0]?).map
      ExtractionItem.business_reg_no = some "" := by
  have h := extractBusinessRegNo_string_coercion_preserved "" "" "03269"
    cfgDefault responseEmptyFields "rid" rfl
  exact ⟨h.2.1 0 rfl, h.2.2.2 (by decide) 0 rfl⟩
